import Mathlib

/-!
Verification of the client-side graph/session orchestration engine of the
PaperMap application (frontend `page.tsx`).  The TypeScript source is
shallowly embedded: numbers that feed arithmetic are modelled as `ℚ`,
citation counts as `ℕ`, dates as integer timestamps (`new Date` parsing
followed by `<` becomes integer `<`), JavaScript `Set` objects as
duplicate-free insertion-ordered lists, and React state commits as atomic
transitions (all `setX` calls issued in one synchronous continuation are
applied together, which is how React batches them).
-/

namespace PaperMap

/-- A paper record as returned by the search backend (`interface Paper`).
`published` is modelled as an integer timestamp; nullable fields become
`Option`. -/
structure Paper where
  arxiv_id : String
  title : String
  abstract : String
  authors : List String
  published : Int
  pdf_url : String
  categories : List String
  cluster : Option Int
  cluster_name : Option String
  x : Option ℚ
  y : Option ℚ
  neighbors : Option (List String)
  citation_count : Nat
  references : Option (List String)
  deriving DecidableEq

/-- A cluster label (`interface Category`). -/
structure Category where
  id : Int
  name : String
  description : String
  color : String
  count : Nat
  deriving DecidableEq

/-- A directed citing relationship (`interface CitationLink`). -/
structure CitationLink where
  source : String
  target : String
  deriving DecidableEq

/-- Renderable projection of a paper (`interface GraphNode`).  `cluster`
is `Option Int` because the source's non-null assertion `p.cluster!` can
still propagate `null` at runtime. -/
structure GraphNode where
  id : String
  title : String
  abstract : String
  authors : List String
  published : Int
  cluster : Option Int
  cluster_name : String
  color : String
  x : ℚ
  y : ℚ
  citation_count : Nat
  pulse_intensity : ℚ
  deriving DecidableEq

/-- A link endpoint: the render engine may hold either a raw id or a
resolved node reference (`source: string | GraphNode`). -/
inductive LinkEnd where
  | id (s : String)
  | node (n : GraphNode)
  deriving DecidableEq

/-- Renderable edge (`interface GraphLink`).  The optional `isCitation`
flag is modelled as a `Bool` (absent ≡ `false`, its only falsy reading). -/
structure GraphLink where
  source : LinkEnd
  target : LinkEnd
  isCitation : Bool
  deriving DecidableEq

/-- Node/link graph (`interface GraphData`). -/
structure GraphData where
  nodes : List GraphNode
  links : List GraphLink
  deriving DecidableEq

/-- Normalize a link endpoint to its id, as the source does with
`typeof l.source === 'string' ? l.source : l.source.id`. -/
def LinkEnd.endId : LinkEnd → String
  | .id s => s
  | .node n => n.id

/-- JavaScript `a || d` for a nullable string `a`: the empty string and
`null`/`undefined` are falsy and select the fallback. -/
def jsOr (a : Option String) (d : String) : String :=
  match a with
  | some s => if s = "" then d else s
  | none => d

/-- `Map.get` on a map built from an association list, with a nullable
key: `null` keys miss, and for duplicate keys the last binding wins
(JavaScript `Map` constructor semantics). -/
def mapGet (pairs : List (Int × String)) (k : Option Int) : Option String :=
  match k with
  | none => none
  | some i => (pairs.reverse.find? (fun p => p.1 = i)).map (fun p => p.2)

/-- The fixed position scale constant of `buildGraphData`. -/
def scale : ℚ := 600

/-- The node constructed from one paper inside `buildGraphData`'s `.map`
callback.  Partial (`Option`-typed) fields are taken with `getD 0`: the
function is only ever applied to papers that passed the
`x !== null && y !== null` filter, where the defaults are irrelevant. -/
def paperToNode (categories : List Category) (maxCitations : Nat) (p : Paper) : GraphNode :=
  let colorPairs := categories.map (fun c => (c.id, c.color))
  let namePairs := categories.map (fun c => (c.id, c.name))
  { id := p.arxiv_id
    title := p.title
    abstract := p.abstract
    authors := p.authors
    published := p.published
    cluster := p.cluster
    cluster_name := jsOr p.cluster_name (jsOr (mapGet namePairs p.cluster) "Unknown")
    color := jsOr (mapGet colorPairs p.cluster) "#666"
    x := (p.x.getD 0) * scale
    y := (p.y.getD 0) * scale
    citation_count := p.citation_count
    pulse_intensity :=
      if maxCitations > 0 then
        min 1 ((p.citation_count : ℚ) / (maxCitations : ℚ))
      else 0 }

/-- Whether a link connects the unordered pair `{a, b}` — the body of the
`links.find` duplicate check in `buildGraphData`. -/
def pairMatches (l : GraphLink) (a b : String) : Bool :=
  (l.source.endId = a && l.target.endId = b) ||
  (l.source.endId = b && l.target.endId = a)

/-- The inner `paper.neighbors.forEach` loop of `buildGraphData`: push a
similarity edge for each neighbor present in the node set unless an edge
between that unordered pair already exists. -/
def addNeighborLinks (srcId : String) (nodeIds : List String)
    (neighbors : List String) (links : List GraphLink) : List GraphLink :=
  neighbors.foldl (fun acc nb =>
    if nodeIds.contains nb then
      if acc.any (fun l => pairMatches l srcId nb) then acc
      else acc ++ [{ source := .id srcId, target := .id nb, isCitation := false }]
    else acc) links

/-- One iteration of the outer `papers.forEach` loop of `buildGraphData`:
skip papers with a `null` neighbor list, otherwise run the inner loop. -/
def simStep (nodeIds : List String) (acc : List GraphLink) (p : Paper) : List GraphLink :=
  match p.neighbors with
  | none => acc
  | some nbs => addNeighborLinks p.arxiv_id nodeIds nbs acc

/-- The outer `papers.forEach` loop of `buildGraphData` that accumulates
similarity links. -/
def simLinks (papers : List Paper) (nodeIds : List String) : List GraphLink :=
  papers.foldl (simStep nodeIds) []

/-- `buildGraphData`: papers + categories + citation links + the maximum
citation count → node list and link list (similarity links first, then
citation links whose both endpoints resolve). -/
def buildGraphData (papers : List Paper) (categories : List Category)
    (citationLinks : List CitationLink) (maxCitations : Nat) : GraphData :=
  let nodes := (papers.filter (fun p => p.x.isSome && p.y.isSome)).map
    (paperToNode categories maxCitations)
  let nodeIds := nodes.map (fun n => n.id)
  let sim := simLinks papers nodeIds
  let cits := (citationLinks.filter
      (fun cl => nodeIds.contains cl.source && nodeIds.contains cl.target)).map
    (fun cl => { source := .id cl.source, target := .id cl.target, isCitation := true })
  { nodes := nodes, links := sim ++ cits }

/-- The `visibleClusters.has(node.cluster)` test: a `null` cluster is
never a member of the set of visible cluster ids. -/
def clusterVisible (c : Option Int) (visibleClusters : List Int) : Bool :=
  match c with
  | some i => visibleClusters.contains i
  | none => false

/-- The node predicate of the `filteredGraphData` memo: cluster must be
visible, and when a date cutoff is set and the node's paper is found in
the paper list, the paper's published date must not precede the cutoff.
When the paper lookup fails the date test is skipped. -/
def nodePasses (visibleClusters : List Int) (dateFilterCutoff : Option Int)
    (papers : List Paper) (node : GraphNode) : Bool :=
  if !clusterVisible node.cluster visibleClusters then false
  else
    match dateFilterCutoff with
    | none => true
    | some cutoff =>
      match papers.find? (fun p => p.arxiv_id = node.id) with
      | none => true
      | some p => !(p.published < cutoff)

/-- `filteredGraphData`: keep the nodes passing the filter predicate, then
keep only the links whose both endpoints (normalized to ids) are among the
kept nodes' ids.  `none` graph data yields `none`. -/
def filteredGraphData (graphData : Option GraphData) (visibleClusters : List Int)
    (dateFilterCutoff : Option Int) (papers : List Paper) : Option GraphData :=
  match graphData with
  | none => none
  | some gd =>
    let filteredNodes := gd.nodes.filter (nodePasses visibleClusters dateFilterCutoff papers)
    let nodeIds := filteredNodes.map (fun n => n.id)
    let filteredLinks := gd.links.filter (fun link =>
      nodeIds.contains link.source.endId && nodeIds.contains link.target.endId)
    some { nodes := filteredNodes, links := filteredLinks }

/-- The context-dock add operation (`setContextPapers` updater shared by
the `mouseup` handler and `onNodeDragEnd`): append the dragged node unless
an entry with its id is already present. -/
def addToContext (prev : List GraphNode) (node : GraphNode) : List GraphNode :=
  if prev.any (fun p => p.id = node.id) then prev else prev ++ [node]

/-- `removeFromContext`: drop every entry carrying the given paper id. -/
def removeFromContext (prev : List GraphNode) (paperId : String) : List GraphNode :=
  prev.filter (fun p => p.id ≠ paperId)

/-- The `added` half of the context-membership diff in the pre-parse
effect: current entries whose id was not in the previous id list. -/
def computeAdded (contextPapers : List GraphNode) (prevIds : List String) : List GraphNode :=
  contextPapers.filter (fun p => !prevIds.contains p.id)

/-- The `removed` half of the context-membership diff: previous ids no
longer among the current ids. -/
def computeRemoved (currentIds prevIds : List String) : List String :=
  prevIds.filter (fun id => !currentIds.contains id)

-- ============================================================================
-- ParseJobOrchestrator: the parsing/parsed status sets
-- ============================================================================

/-- JavaScript `new Set([...prev, id])`: insertion-ordered, duplicate
free. -/
def setInsert (l : List String) (id : String) : List String :=
  if l.contains id then l else l ++ [id]

/-- JavaScript `Set.delete` followed by returning the set. -/
def setErase (l : List String) (id : String) : List String :=
  l.filter (fun x => x ≠ id)

/-- The two status sets owned by the pre-parse effect. -/
structure ParseState where
  parsing : List String
  parsed : List String
  deriving DecidableEq

/-- One observable commit of the pre-parse effect.  Each constructor is
one synchronous continuation of the per-paper job, whose queued `setX`
updates React applies in a single batch:
* `submit`: the idempotency guard passed (the id is in neither set) and
  the id is marked parsing;
* `cachedDone`: the submission reported `cached`/`completed` — the id is
  added to the parsed set and removed from the parsing set (the `finally`
  re-deletion is idempotent);
* `pollCompleted`: a poll observed `completed` — same two updates;
* `pollFailed`: a poll observed `failed` — the error is logged and the
  `finally` block removes the id from the parsing set;
* `errored`: a fetch threw — the `finally` block removes the id;
* `exhausted`: the attempt budget ran out — the `finally` block removes
  the id. -/
inductive ParseStep : ParseState → ParseState → Prop where
  | submit (s : ParseState) (id : String)
      (hParsed : ¬ s.parsed.contains id) (hParsing : ¬ s.parsing.contains id) :
      ParseStep s ⟨setInsert s.parsing id, s.parsed⟩
  | cachedDone (s : ParseState) (id : String) (h : s.parsing.contains id) :
      ParseStep s ⟨setErase s.parsing id, setInsert s.parsed id⟩
  | pollCompleted (s : ParseState) (id : String) (h : s.parsing.contains id) :
      ParseStep s ⟨setErase s.parsing id, setInsert s.parsed id⟩
  | pollFailed (s : ParseState) (id : String) :
      ParseStep s ⟨setErase s.parsing id, s.parsed⟩
  | errored (s : ParseState) (id : String) :
      ParseStep s ⟨setErase s.parsing id, s.parsed⟩
  | exhausted (s : ParseState) (id : String) :
      ParseStep s ⟨setErase s.parsing id, s.parsed⟩

/-- States reachable from the initial (empty, empty) status sets. -/
inductive ParseReachable : ParseState → Prop where
  | init : ParseReachable ⟨[], []⟩
  | step {s t : ParseState} : ParseReachable s → ParseStep s t → ParseReachable t

-- ============================================================================
-- ChatSession: sendChatMessage
-- ============================================================================

/-- Message role. -/
inductive Role where
  | user
  | assistant
  deriving DecidableEq

/-- One chat turn. -/
structure ChatMessage where
  role : Role
  content : String
  deriving DecidableEq

/-- Outcome of the `/api/chat` call: a successful response body, or a
failure (non-ok HTTP status or a thrown transport error — both land in
the same `catch`). -/
inductive ChatOutcome where
  | success (response : String)
  | failure (error : String)
  deriving DecidableEq

/-- The chat-relevant slice of component state. -/
structure ChatState where
  chatMessages : List ChatMessage
  chatInput : String
  chatLoading : Bool
  contextPapers : List GraphNode
  errorLog : List String
  deriving DecidableEq

/-- JavaScript `String.prototype.trim`, modelled over the character
list so that it is kernel-computable: drop leading and trailing
whitespace.  Only blankness (`trim() = ""`) of a message or query is ever
consumed by the embedded logic. -/
def jsTrim (s : String) : String :=
  String.mk (((s.data.dropWhile Char.isWhitespace).reverse.dropWhile
    Char.isWhitespace).reverse)

/-- The fixed apologetic fallback text appended on chat failure. -/
def chatFallback : String :=
  "Sorry, there was an error processing your request. Please try again."

/-- `sendChatMessage`: refuse (return `none`) when the message is blank,
the context set is empty, or a request is in flight; otherwise append the
user message, clear the input, and depending on the backend outcome append
either the assistant response or the fixed fallback (logging the error);
the `finally` block clears the in-flight flag. -/
def sendChatMessage (s : ChatState) (message : String) (outcome : ChatOutcome) :
    Option ChatState :=
  if jsTrim message = "" || s.contextPapers.isEmpty || s.chatLoading then none
  else
    let s1 : ChatState :=
      { s with chatMessages := s.chatMessages ++ [⟨Role.user, message⟩],
               chatInput := "", chatLoading := true }
    match outcome with
    | .success resp =>
      some { s1 with chatMessages := s1.chatMessages ++ [⟨Role.assistant, resp⟩],
                     chatLoading := false }
    | .failure err =>
      some { s1 with chatMessages := s1.chatMessages ++ [⟨Role.assistant, chatFallback⟩],
                     errorLog := s1.errorLog ++ [err],
                     chatLoading := false }

-- ============================================================================
-- SearchCoordinator: the synchronous prefix of handleSearch
-- ============================================================================

/-- The component state touched by `handleSearch` before the search
collaborator is invoked. -/
structure HomeState where
  query : String
  isLoading : Bool
  loadingStatus : String
  graphData : Option GraphData
  papers : List Paper
  categories : List Category
  expandedQueries : List String
  dateFilter : String
  contextPapers : List GraphNode
  chatMessages : List ChatMessage
  deriving DecidableEq

/-- The synchronous prefix of `handleSearch`, up to (but excluding) the
`searchPapers` call: refuse (`none`) when the trimmed query is empty or a
search is in flight; otherwise set the loading flag, reset graph data,
papers, categories, expanded queries and the date filter, and progress the
loading status.  These are exactly the state updates issued before the
search collaborator runs. -/
def handleSearchPre (s : HomeState) : Option HomeState :=
  if jsTrim s.query = "" || s.isLoading then none
  else
    some { s with isLoading := true,
                  graphData := none,
                  papers := [],
                  categories := [],
                  expandedQueries := [],
                  dateFilter := "all",
                  loadingStatus := "Expanding search queries..." }

-- ============================================================================
-- Helper lemmas
-- ============================================================================

theorem mem_setInsert {l : List String} {a b : String} :
    a ∈ setInsert l b ↔ a ∈ l ∨ a = b := by
  unfold setInsert
  by_cases h : l.contains b
  · rw [if_pos h]
    constructor
    · exact Or.inl
    · rintro (ha | rfl)
      · exact ha
      · exact List.elem_iff.mp h
  · rw [if_neg h]
    simp [List.mem_append]

theorem mem_setErase {l : List String} {a b : String} :
    a ∈ setErase l b ↔ a ∈ l ∧ a ≠ b := by
  simp [setErase]

-- ============================================================================
-- Sample values used by witnesses and counterexamples
-- ============================================================================

/-- A sample paper "A" with valid coordinates whose neighbor list holds
"B". -/
def paperA : Paper :=
  { arxiv_id := "A", title := "tA", abstract := "aA", authors := [],
    published := 0, pdf_url := "uA", categories := [], cluster := some 1,
    cluster_name := none, x := some 0, y := some 0, neighbors := some ["B"],
    citation_count := 1, references := none }

/-- A sample paper "B" with valid coordinates whose neighbor list holds
"A": `paperA` and `paperB` are mutual neighbors. -/
def paperB : Paper :=
  { paperA with
    arxiv_id := "B",
    title := "tB",
    neighbors := some ["A"],
    citation_count := 2 }

/-- A sample node for paper "A" in cluster 1. -/
def nodeA : GraphNode :=
  { id := "A", title := "tA", abstract := "aA", authors := [], published := 0,
    cluster := some 1, cluster_name := "c1", color := "#666", x := 0, y := 0,
    citation_count := 1, pulse_intensity := 0 }

/-- A sample node for paper "B" in cluster 1. -/
def nodeB : GraphNode :=
  { nodeA with id := "B", title := "tB", citation_count := 2 }

/-- A similarity link from "A" to "B". -/
def linkAB : GraphLink :=
  { source := .id "A", target := .id "B", isCitation := false }

/-- A sample two-node graph with one similarity link. -/
def gdAB : GraphData :=
  { nodes := [nodeA, nodeB], links := [linkAB] }

-- ============================================================================
-- Claim C3: the parsing and parsed sets are disjoint at every observable
-- point of the parse-job orchestration
-- ============================================================================

/-- Claim C3: for every paper id, in every state reachable through the
parse-job orchestration (submission, cached-result handling, polling,
completion, failure, cleanup), the id is never simultaneously in the
"parsing" set and the "parsed" set. -/
theorem parse_sets_disjoint (s : ParseState) (h : ParseReachable s) (id : String) :
    ¬ (id ∈ s.parsing ∧ id ∈ s.parsed) := by
  induction h with
  | init => simp
  | step hr hstep ih =>
    rintro ⟨hin, hdone⟩
    cases hstep with
    | submit id' hParsed hParsing =>
      rcases mem_setInsert.mp hin with hold | rfl
      · exact ih ⟨hold, hdone⟩
      · exact hParsed (List.elem_iff.mpr hdone)
    | cachedDone id' hlive =>
      rcases mem_setErase.mp hin with ⟨hold, hne⟩
      rcases mem_setInsert.mp hdone with holdDone | rfl
      · exact ih ⟨hold, holdDone⟩
      · exact hne rfl
    | pollCompleted id' hlive =>
      rcases mem_setErase.mp hin with ⟨hold, hne⟩
      rcases mem_setInsert.mp hdone with holdDone | rfl
      · exact ih ⟨hold, holdDone⟩
      · exact hne rfl
    | pollFailed id' =>
      exact ih ⟨(mem_setErase.mp hin).1, hdone⟩
    | errored id' =>
      exact ih ⟨(mem_setErase.mp hin).1, hdone⟩
    | exhausted id' =>
      exact ih ⟨(mem_setErase.mp hin).1, hdone⟩

/-- Witness for C3: the state reached by submitting paper "A" and then
observing a cached completion is reachable, and "A" is not in both sets
there. -/
theorem parse_sets_disjoint_witness :
    ¬ ("A" ∈ (ParseState.mk [] ["A"]).parsing ∧ "A" ∈ (ParseState.mk [] ["A"]).parsed) :=
  parse_sets_disjoint ⟨[], ["A"]⟩
    (ParseReachable.step
      (ParseReachable.step ParseReachable.init
        (ParseStep.submit ⟨[], []⟩ "A" (by decide) (by decide)))
      (ParseStep.cachedDone ⟨["A"], []⟩ "A" (by decide)))
    "A"

-- ============================================================================
-- Claim C1: no visible edge has an invisible endpoint
-- ============================================================================

/-- Claim C1: for every full graph and every filter state (visible
cluster ids and optional date cutoff), every link of the filtered
subgraph has both its source and its target — each normalized to an id —
among the ids of the filtered node set. -/
theorem filteredGraph_edge_endpoints_visible
    (gd : GraphData) (visibleClusters : List Int) (cutoff : Option Int)
    (papers : List Paper) (fd : GraphData)
    (hfd : filteredGraphData (some gd) visibleClusters cutoff papers = some fd)
    (link : GraphLink) (hlink : link ∈ fd.links) :
    link.source.endId ∈ fd.nodes.map (fun n => n.id) ∧
    link.target.endId ∈ fd.nodes.map (fun n => n.id) := by
  simp only [filteredGraphData, Option.some.injEq] at hfd
  subst hfd
  simp only [List.mem_filter] at hlink
  obtain ⟨-, hcond⟩ := hlink
  rw [Bool.and_eq_true] at hcond
  exact ⟨List.elem_iff.mp hcond.1, List.elem_iff.mp hcond.2⟩

/-- Witness for C1 at a concrete graph: the sample graph with one link,
everything visible. -/
theorem filteredGraph_edge_endpoints_visible_witness :
    linkAB.source.endId ∈ gdAB.nodes.map (fun n => n.id) ∧
    linkAB.target.endId ∈ gdAB.nodes.map (fun n => n.id) :=
  filteredGraph_edge_endpoints_visible gdAB [1] none [] gdAB (by decide)
    linkAB (by decide)

-- ============================================================================
-- Claim C10: a date cutoff never excludes a node whose paper lookup fails
-- ============================================================================

/-- Claim C10: for every node of the full graph whose id matches no paper
in the current paper list, a set date cutoff never excludes the node — if
its cluster is visible it appears in the filtered subgraph, because the
date test is skipped when the paper lookup fails. -/
theorem date_filter_skips_unknown_papers
    (gd : GraphData) (visibleClusters : List Int) (cutoff : Int)
    (papers : List Paper) (node : GraphNode)
    (hmem : node ∈ gd.nodes)
    (hcl : clusterVisible node.cluster visibleClusters = true)
    (hmiss : ∀ p ∈ papers, p.arxiv_id ≠ node.id) :
    ∃ fd, filteredGraphData (some gd) visibleClusters (some cutoff) papers = some fd ∧
      node ∈ fd.nodes := by
  refine ⟨_, rfl, List.mem_filter.mpr ⟨hmem, ?_⟩⟩
  unfold nodePasses
  rw [hcl]
  have hfind : papers.find? (fun p => p.arxiv_id = node.id) = none := by
    apply List.find?_eq_none.mpr
    intro p hp
    simpa using hmiss p hp
  simp [hfind]

/-- Witness for C10: the sample node "A" with an empty paper list passes
a cutoff filter. -/
theorem date_filter_skips_unknown_papers_witness :
    ∃ fd, filteredGraphData (some gdAB) [1] (some 100) [] = some fd ∧
      nodeA ∈ fd.nodes :=
  date_filter_skips_unknown_papers gdAB [1] 100 [] nodeA (by decide) (by decide)
    (by intro p hp; cases hp)

-- ============================================================================
-- Claim C7: the context-membership diff is complete and correct
-- ============================================================================

/-- Claim C7: for every pair of consecutive context-membership snapshots,
the diff computed by the pre-parse effect is exact: the added ids are
precisely those in the current membership but not the previous one, and
the removed ids precisely those in the previous membership but not the
current one. -/
theorem context_diff_complete (ctx : List GraphNode) (prevIds : List String)
    (id : String) :
    (id ∈ (computeAdded ctx prevIds).map (fun p => p.id) ↔
      id ∈ ctx.map (fun p => p.id) ∧ id ∉ prevIds) ∧
    (id ∈ computeRemoved (ctx.map (fun p => p.id)) prevIds ↔
      id ∈ prevIds ∧ id ∉ ctx.map (fun p => p.id)) := by
  constructor
  · simp only [computeAdded, List.mem_map, List.mem_filter]
    constructor
    · rintro ⟨p, ⟨hp, hnp⟩, rfl⟩
      exact ⟨⟨p, hp, rfl⟩, by simpa using hnp⟩
    · rintro ⟨⟨p, hp, rfl⟩, hnp⟩
      exact ⟨p, ⟨hp, by simpa using hnp⟩, rfl⟩
  · simp only [computeRemoved, List.mem_filter, List.mem_map]
    constructor
    · rintro ⟨hp, hnc⟩
      exact ⟨hp, by simpa using hnc⟩
    · rintro ⟨hp, hnc⟩
      exact ⟨hp, by simpa using hnc⟩

-- ============================================================================
-- Claim C6: adding to the context set is idempotent
-- ============================================================================

/-- Claim C6: dropping a node whose id is already in the context set
leaves the set unchanged (a no-op, no error), and adding the same paper
id twice to a set not containing it yields exactly one entry for that
id. -/
theorem context_add_idempotent (t s : List GraphNode) (n : GraphNode)
    (hpresent : t.any (fun p => p.id = n.id) = true)
    (hfresh : s.any (fun p => p.id = n.id) = false) :
    addToContext t n = t ∧
    addToContext (addToContext s n) n = addToContext s n ∧
    (addToContext (addToContext s n) n).countP (fun p => p.id = n.id) = 1 := by
  have h2 : (s ++ [n]).any (fun p => p.id = n.id) = true := by simp
  have hc : s.countP (fun p => p.id = n.id) = 0 := by
    rw [List.countP_eq_zero]
    intro p hp
    have := List.any_eq_false.mp hfresh p hp
    simpa using this
  refine ⟨by simp [addToContext, hpresent], ?_, ?_⟩
  · simp [addToContext, hfresh, h2]
  · simp [addToContext, hfresh, h2, List.countP_append, hc, List.countP_cons]

/-- Witness for C6: a context holding "A", and the empty context, with
node "A". -/
theorem context_add_idempotent_witness :
    addToContext [nodeA] nodeA = [nodeA] ∧
    addToContext (addToContext [] nodeA) nodeA = addToContext [] nodeA ∧
    (addToContext (addToContext [] nodeA) nodeA).countP
      (fun p => p.id = nodeA.id) = 1 :=
  context_add_idempotent [nodeA] [] nodeA (by decide) (by decide)

-- ============================================================================
-- Claim C5: pulse intensity is the clamped normalized citation count
-- ============================================================================

/-- Claim C5: for every paper with a valid coordinate, the produced
node's pulse intensity equals the citation count divided by
`maxCitations` clamped above at 1 when `maxCitations` is positive, equals
0 when `maxCitations` is 0, and always lies in [0, 1]. -/
theorem pulse_intensity_spec (papers : List Paper) (categories : List Category)
    (citationLinks : List CitationLink) (maxCitations : Nat) (p : Paper)
    (hp : p ∈ papers) (hx : p.x.isSome = true) (hy : p.y.isSome = true) :
    paperToNode categories maxCitations p ∈
      (buildGraphData papers categories citationLinks maxCitations).nodes ∧
    (paperToNode categories maxCitations p).pulse_intensity =
      (if maxCitations > 0 then
        min 1 ((p.citation_count : ℚ) / (maxCitations : ℚ)) else 0) ∧
    0 ≤ (paperToNode categories maxCitations p).pulse_intensity ∧
    (paperToNode categories maxCitations p).pulse_intensity ≤ 1 := by
  refine ⟨?_, rfl, ?_, ?_⟩
  · unfold buildGraphData
    exact List.mem_map_of_mem _ (List.mem_filter.mpr ⟨hp, by simp [hx, hy]⟩)
  · show (0 : ℚ) ≤ (if maxCitations > 0 then
        min 1 ((p.citation_count : ℚ) / (maxCitations : ℚ)) else 0)
    by_cases h : maxCitations > 0
    · rw [if_pos h]
      exact le_min (by norm_num) (div_nonneg (Nat.cast_nonneg _) (Nat.cast_nonneg _))
    · rw [if_neg h]
  · show (if maxCitations > 0 then
        min 1 ((p.citation_count : ℚ) / (maxCitations : ℚ)) else 0) ≤ 1
    by_cases h : maxCitations > 0
    · rw [if_pos h]
      exact min_le_left _ _
    · rw [if_neg h]
      norm_num

/-- Witness for C5: paper "A" (1 citation) in a result set whose maximum
citation count is 2. -/
theorem pulse_intensity_spec_witness :
    paperToNode [] 2 paperA ∈ (buildGraphData [paperA] [] [] 2).nodes ∧
    (paperToNode [] 2 paperA).pulse_intensity =
      (if 2 > 0 then min 1 ((paperA.citation_count : ℚ) / ((2 : Nat) : ℚ)) else 0) ∧
    0 ≤ (paperToNode [] 2 paperA).pulse_intensity ∧
    (paperToNode [] 2 paperA).pulse_intensity ≤ 1 :=
  pulse_intensity_spec [paperA] [] [] 2 paperA (by simp) (by decide) (by decide)

-- ============================================================================
-- Claim C9: chat failure appends one fallback message and the session
-- stays usable
-- ============================================================================

/-- A send with a non-blank message, a non-empty context set and no
request in flight is never refused. -/
theorem sendChat_not_refused (st : ChatState) (m : String) (o : ChatOutcome)
    (hm : jsTrim m ≠ "") (hc : st.contextPapers ≠ []) (hl : st.chatLoading = false) :
    sendChatMessage st m o ≠ none := by
  unfold sendChatMessage
  have hguard : (jsTrim m = "" || st.contextPapers.isEmpty || st.chatLoading) = false := by
    simp [hm, hl, List.isEmpty_iff, hc]
  rw [hguard]
  cases o <;> simp

/-- Claim C9: when the chat backend call fails, exactly one
assistant-role message holding the fixed apologetic fallback string is
appended (after the optimistic user message), the error is logged, the
in-flight flag is cleared, and a subsequent send with a non-blank message
and the still non-empty context set is not refused. -/
theorem chat_failure_fallback (s : ChatState) (message err : String)
    (hm : jsTrim message ≠ "") (hc : s.contextPapers ≠ []) (hl : s.chatLoading = false) :
    ∃ s', sendChatMessage s message (.failure err) = some s' ∧
      s'.chatMessages = s.chatMessages ++
        [⟨Role.user, message⟩, ⟨Role.assistant, chatFallback⟩] ∧
      s'.errorLog = s.errorLog ++ [err] ∧
      s'.chatLoading = false ∧
      s'.contextPapers = s.contextPapers ∧
      ∀ m2 outcome2, jsTrim m2 ≠ "" → sendChatMessage s' m2 outcome2 ≠ none := by
  have hguard : (jsTrim message = "" || s.contextPapers.isEmpty || s.chatLoading) = false := by
    simp [hm, hl, List.isEmpty_iff, hc]
  refine ⟨{ chatMessages := s.chatMessages ++
              [⟨Role.user, message⟩, ⟨Role.assistant, chatFallback⟩],
            chatInput := "", chatLoading := false,
            contextPapers := s.contextPapers,
            errorLog := s.errorLog ++ [err] }, ?_, rfl, rfl, rfl, rfl, ?_⟩
  · unfold sendChatMessage
    rw [hguard]
    simp
  · intro m2 outcome2 hm2
    exact sendChat_not_refused _ m2 outcome2 hm2 hc rfl

/-- Witness for C9: a state with context paper "A" and message "hi". -/
theorem chat_failure_fallback_witness :
    ∃ s', sendChatMessage ⟨[], "", false, [nodeA], []⟩ "hi" (.failure "boom") = some s' ∧
      s'.chatMessages = ([] : List ChatMessage) ++
        [⟨Role.user, "hi"⟩, ⟨Role.assistant, chatFallback⟩] ∧
      s'.errorLog = ([] : List String) ++ ["boom"] ∧
      s'.chatLoading = false ∧
      s'.contextPapers = [nodeA] ∧
      ∀ m2 outcome2, jsTrim m2 ≠ "" → sendChatMessage s' m2 outcome2 ≠ none :=
  chat_failure_fallback ⟨[], "", false, [nodeA], []⟩ "hi" "boom" (by decide)
    (by decide) rfl

-- ============================================================================
-- Claim C2 (corrected): what a new search does and does not clear
-- ============================================================================

/-- A concrete component state before a search: non-blank query, no
search in flight, one context paper and one chat message. -/
def searchState : HomeState :=
  { query := "q", isLoading := false, loadingStatus := "",
    graphData := none, papers := [], categories := [],
    expandedQueries := [], dateFilter := "all",
    contextPapers := [nodeA], chatMessages := [⟨Role.user, "hello"⟩] }

/-- Counterexample to C2 as stated: running the synchronous prefix of
`handleSearch` on `searchState` leaves the context set and the chat
transcript untouched — they are not cleared before the search
collaborator is invoked. -/
theorem handleSearch_keeps_context_and_chat :
    (handleSearchPre searchState).map (fun s => s.contextPapers) = some [nodeA] ∧
    (handleSearchPre searchState).map (fun s => s.chatMessages) =
      some [⟨Role.user, "hello"⟩] ∧
    [nodeA] ≠ ([] : List GraphNode) ∧
    [(⟨Role.user, "hello"⟩ : ChatMessage)] ≠ ([] : List ChatMessage) := by
  refine ⟨rfl, rfl, by decide, by decide⟩

/-- Claim C2 as amended: on a non-blank query with no search in flight,
the synchronous prefix of `handleSearch` clears the graph, papers,
categories, expanded-query list and date filter and raises the loading
flag before the search collaborator is invoked, but leaves the context
set and the chat transcript unchanged. -/
theorem handleSearch_clears_search_state (s : HomeState)
    (hq : jsTrim s.query ≠ "") (hl : s.isLoading = false) :
    ∃ s', handleSearchPre s = some s' ∧
      s'.graphData = none ∧ s'.papers = [] ∧ s'.categories = [] ∧
      s'.expandedQueries = [] ∧ s'.dateFilter = "all" ∧ s'.isLoading = true ∧
      s'.contextPapers = s.contextPapers ∧ s'.chatMessages = s.chatMessages := by
  have hguard : (jsTrim s.query = "" || s.isLoading) = false := by
    simp [hq, hl]
  refine ⟨{ s with
            isLoading := true,
            graphData := none,
            papers := [],
            categories := [],
            expandedQueries := [],
            dateFilter := "all",
            loadingStatus := "Expanding search queries..." },
          ?_, rfl, rfl, rfl, rfl, rfl, rfl, rfl, rfl⟩
  unfold handleSearchPre
  rw [hguard]
  simp

/-- Witness for the amended C2 at the concrete `searchState`. -/
theorem handleSearch_clears_search_state_witness :
    ∃ s', handleSearchPre searchState = some s' ∧
      s'.graphData = none ∧ s'.papers = [] ∧ s'.categories = [] ∧
      s'.expandedQueries = [] ∧ s'.dateFilter = "all" ∧ s'.isLoading = true ∧
      s'.contextPapers = searchState.contextPapers ∧
      s'.chatMessages = searchState.chatMessages :=
  handleSearch_clears_search_state searchState (by decide) rfl

-- ============================================================================
-- Claim C8 (corrected): papers with an unknown cluster id are kept, with
-- fallback color and name
-- ============================================================================

/-- A category-table lookup on a key no category carries misses. -/
theorem mapGet_eq_none (cats : List Category) (f : Category → String)
    (k : Option Int) (h : ∀ c ∈ cats, some c.id ≠ k) :
    mapGet (cats.map (fun c => (c.id, f c))) k = none := by
  cases k with
  | none => rfl
  | some i =>
    simp only [mapGet]
    rw [Option.map_eq_none', List.find?_eq_none]
    intro q hq
    rw [List.mem_reverse, List.mem_map] at hq
    obtain ⟨c, hc, rfl⟩ := hq
    have hne := h c hc
    simp only [ne_eq, Option.some.injEq] at hne
    simpa using hne

/-- A sample paper in cluster 5 carrying its own cluster name "Foo". -/
def paperFoo : Paper :=
  { paperA with
    arxiv_id := "F",
    cluster := some 5,
    cluster_name := some "Foo" }

/-- Counterexample to C8 as stated: with an empty category table (so the
cluster-id lookup fails), the node built from `paperFoo` is produced with
the fallback color "#666" but its cluster name is the paper's own
`cluster_name` "Foo", not the claimed "Unknown" fallback. -/
theorem missing_category_keeps_own_name :
    ((buildGraphData [paperFoo] [] [] 0).nodes.map (fun n => n.cluster_name)) = ["Foo"] ∧
    ((buildGraphData [paperFoo] [] [] 0).nodes.map (fun n => n.color)) = ["#666"] ∧
    "Foo" ≠ "Unknown" := by
  refine ⟨rfl, rfl, by decide⟩

/-- Claim C8 as amended: a paper with a valid coordinate whose cluster id
has no entry in the category table is not dropped — its node is produced
with the fallback neutral color "#666", and its cluster name is the
paper's own `cluster_name` field when that is non-empty, falling back to
the label "Unknown" otherwise. -/
theorem missing_category_fallback (papers : List Paper) (categories : List Category)
    (citationLinks : List CitationLink) (maxCitations : Nat) (p : Paper)
    (hp : p ∈ papers) (hx : p.x.isSome = true) (hy : p.y.isSome = true)
    (hmiss : ∀ c ∈ categories, some c.id ≠ p.cluster) :
    paperToNode categories maxCitations p ∈
      (buildGraphData papers categories citationLinks maxCitations).nodes ∧
    (paperToNode categories maxCitations p).color = "#666" ∧
    (paperToNode categories maxCitations p).cluster_name = jsOr p.cluster_name "Unknown" := by
  refine ⟨?_, ?_, ?_⟩
  · unfold buildGraphData
    exact List.mem_map_of_mem _ (List.mem_filter.mpr ⟨hp, by simp [hx, hy]⟩)
  · show jsOr (mapGet (categories.map (fun c => (c.id, c.color))) p.cluster) "#666" = "#666"
    rw [mapGet_eq_none _ _ _ hmiss]
    rfl
  · show jsOr p.cluster_name
        (jsOr (mapGet (categories.map (fun c => (c.id, c.name))) p.cluster) "Unknown") =
      jsOr p.cluster_name "Unknown"
    rw [mapGet_eq_none _ _ _ hmiss]
    rfl

/-- Witness for the amended C8 at `paperFoo` with an empty category
table. -/
theorem missing_category_fallback_witness :
    paperToNode [] 0 paperFoo ∈ (buildGraphData [paperFoo] [] [] 0).nodes ∧
    (paperToNode [] 0 paperFoo).color = "#666" ∧
    (paperToNode [] 0 paperFoo).cluster_name = jsOr paperFoo.cluster_name "Unknown" :=
  missing_category_fallback [paperFoo] [] [] 0 paperFoo (by simp) (by decide) (by decide)
    (by intro c hc; cases hc)

-- ============================================================================
-- Claim C4: similarity-edge deduplication
-- ============================================================================

/-- The duplicate check is symmetric in the unordered pair. -/
theorem pairMatches_symm (l : GraphLink) (a b : String) :
    pairMatches l a b = pairMatches l b a := by
  simp [pairMatches, Bool.or_comm]

/-- `countP` only depends on the values of the predicate on the list. -/
theorem countP_ext (l : List GraphLink) (p q : GraphLink → Bool)
    (h : ∀ a ∈ l, p a = q a) : l.countP p = l.countP q := by
  induction l with
  | nil => rfl
  | cons x xs ih =>
    simp only [List.countP_cons, h x (by simp), ih (fun a ha => h a (by simp [ha]))]

/-- Unfolding one iteration of the inner neighbor loop. -/
theorem addNeighborLinks_cons (srcId : String) (ids : List String) (nb : String)
    (rest : List String) (acc : List GraphLink) :
    addNeighborLinks srcId ids (nb :: rest) acc =
      addNeighborLinks srcId ids rest
        (if ids.contains nb then
          (if acc.any (fun l => pairMatches l srcId nb) then acc
           else acc ++ [{ source := .id srcId, target := .id nb, isCitation := false }])
         else acc) := rfl

/-- The inner loop only appends to its accumulator. -/
theorem addNeighborLinks_eq_append (srcId : String) (ids nbs : List String)
    (acc : List GraphLink) :
    ∃ t, addNeighborLinks srcId ids nbs acc = acc ++ t := by
  induction nbs generalizing acc with
  | nil => exact ⟨[], (List.append_nil acc).symm⟩
  | cons nb rest ih =>
    rw [addNeighborLinks_cons]
    by_cases h1 : ids.contains nb = true
    · by_cases h2 : acc.any (fun l => pairMatches l srcId nb) = true
      · rw [if_pos h1, if_pos h2]
        exact ih acc
      · rw [if_pos h1, if_neg h2]
        obtain ⟨t, ht⟩ := ih
          (acc ++ [{ source := .id srcId, target := .id nb, isCitation := false }])
        exact ⟨{ source := .id srcId, target := .id nb, isCitation := false } :: t,
          by rw [ht, List.append_assoc]; rfl⟩
    · rw [if_neg h1]
      exact ih acc

/-- Appending only can raise a `countP`. -/
theorem countP_le_addNeighborLinks (q : GraphLink → Bool) (srcId : String)
    (ids nbs : List String) (acc : List GraphLink) :
    acc.countP q ≤ (addNeighborLinks srcId ids nbs acc).countP q := by
  obtain ⟨t, ht⟩ := addNeighborLinks_eq_append srcId ids nbs acc
  rw [ht, List.countP_append]
  exact Nat.le_add_right _ _

/-- The outer loop only appends to its accumulator. -/
theorem simFold_eq_append (papers : List Paper) (ids : List String)
    (acc : List GraphLink) :
    ∃ t, papers.foldl (simStep ids) acc = acc ++ t := by
  induction papers generalizing acc with
  | nil => exact ⟨[], (List.append_nil acc).symm⟩
  | cons p ps ih =>
    rw [List.foldl_cons]
    have hstep : ∃ t1, simStep ids acc p = acc ++ t1 := by
      unfold simStep
      cases p.neighbors with
      | none => exact ⟨[], (List.append_nil acc).symm⟩
      | some nbs => exact addNeighborLinks_eq_append _ _ _ _
    obtain ⟨t1, ht1⟩ := hstep
    obtain ⟨t2, ht2⟩ := ih (simStep ids acc p)
    exact ⟨t1 ++ t2, by rw [ht2, ht1, List.append_assoc]⟩

/-- Appending only can raise a `countP` (outer loop). -/
theorem countP_le_simFold (q : GraphLink → Bool) (papers : List Paper)
    (ids : List String) (acc : List GraphLink) :
    acc.countP q ≤ (papers.foldl (simStep ids) acc).countP q := by
  obtain ⟨t, ht⟩ := simFold_eq_append papers ids acc
  rw [ht, List.countP_append]
  exact Nat.le_add_right _ _

/-- Endpoint case analysis for a freshly pushed similarity link that
matches the pair `{x, y}`. -/
theorem pairMatches_newLink_cases {srcId nb x y : String}
    (h : pairMatches
      { source := .id srcId, target := .id nb, isCitation := false } x y = true) :
    (srcId = x ∧ nb = y) ∨ (srcId = y ∧ nb = x) := by
  simpa [pairMatches, LinkEnd.endId] using h

/-- The inner loop preserves "at most one similarity edge per unordered
pair": a link is only pushed when no accumulated link connects its
pair. -/
theorem addNeighborLinks_count_le_one (x y srcId : String) (ids nbs : List String)
    (acc : List GraphLink)
    (h : acc.countP (fun l => pairMatches l x y) ≤ 1) :
    (addNeighborLinks srcId ids nbs acc).countP (fun l => pairMatches l x y) ≤ 1 := by
  induction nbs generalizing acc with
  | nil => exact h
  | cons nb rest ih =>
    rw [addNeighborLinks_cons]
    by_cases h1 : ids.contains nb = true
    · by_cases h2 : acc.any (fun l => pairMatches l srcId nb) = true
      · rw [if_pos h1, if_pos h2]
        exact ih acc h
      · rw [if_pos h1, if_neg h2]
        apply ih
        rw [List.countP_append]
        by_cases hq : pairMatches
            { source := .id srcId, target := .id nb, isCitation := false } x y = true
        · have hz : acc.countP (fun l => pairMatches l x y) = 0 := by
            have hall : ∀ l ∈ acc, pairMatches l srcId nb = false := by
              intro l hl
              have := List.any_eq_false.mp (Bool.of_not_eq_true h2) l hl
              simpa using this
            rcases pairMatches_newLink_cases hq with ⟨rfl, rfl⟩ | ⟨rfl, rfl⟩
            · rw [List.countP_eq_zero]
              intro l hl
              simp [hall l hl]
            · rw [List.countP_eq_zero]
              intro l hl
              rw [pairMatches_symm]
              simp [hall l hl]
          simp [hz, List.countP_cons, hq]
        · have hzq : List.countP (fun l => pairMatches l x y)
              [{ source := .id srcId, target := .id nb, isCitation := false }] = 0 := by
            simp [List.countP_cons, hq]
          rw [hzq, Nat.add_zero]
          exact h
    · rw [if_neg h1]
      exact ih acc h

/-- The outer loop preserves "at most one similarity edge per unordered
pair". -/
theorem simFold_count_le_one (x y : String) (papers : List Paper)
    (ids : List String) (acc : List GraphLink)
    (h : acc.countP (fun l => pairMatches l x y) ≤ 1) :
    ((papers.foldl (simStep ids) acc).countP (fun l => pairMatches l x y)) ≤ 1 := by
  induction papers generalizing acc with
  | nil => exact h
  | cons p ps ih =>
    rw [List.foldl_cons]
    apply ih
    unfold simStep
    cases p.neighbors with
    | none => exact h
    | some nbs => exact addNeighborLinks_count_le_one x y _ ids nbs acc h

/-- Processing a neighbor `nb` present in the node set guarantees an edge
for the pair `{srcId, nb}` in the inner loop's output. -/
theorem addNeighborLinks_count_ge_one (srcId nb : String) (ids nbs : List String)
    (acc : List GraphLink) (hnb : nb ∈ nbs) (hin : ids.contains nb = true) :
    1 ≤ (addNeighborLinks srcId ids nbs acc).countP
      (fun l => pairMatches l srcId nb) := by
  induction nbs generalizing acc with
  | nil => cases hnb
  | cons a rest ih =>
    rw [addNeighborLinks_cons]
    rcases List.mem_cons.mp hnb with rfl | htail
    · rw [if_pos hin]
      by_cases h2 : acc.any (fun l => pairMatches l srcId nb) = true
      · rw [if_pos h2]
        obtain ⟨l, hl, hpl⟩ := List.any_eq_true.mp h2
        calc 1 ≤ acc.countP (fun l => pairMatches l srcId nb) :=
              List.countP_pos_iff.mpr ⟨l, hl, hpl⟩
          _ ≤ _ := countP_le_addNeighborLinks _ _ _ _ _
      · rw [if_neg h2]
        have hone : 1 ≤ (acc ++
            [({ source := .id srcId, target := .id nb, isCitation := false } : GraphLink)]).countP
            (fun l => pairMatches l srcId nb) := by
          rw [List.countP_append]
          have hm : pairMatches
              ({ source := .id srcId, target := .id nb, isCitation := false } : GraphLink)
              srcId nb = true := by
            simp [pairMatches, LinkEnd.endId]
          simp [List.countP_cons, hm]
        calc 1 ≤ _ := hone
          _ ≤ _ := countP_le_addNeighborLinks _ _ _ _ _
    · exact ih _ htail

/-- A paper in the list with a neighbor in the node set yields at least
one edge for the pair in the outer loop's output. -/
theorem simFold_count_ge_one (papers : List Paper) (ids : List String)
    (acc : List GraphLink) (a : Paper) (ha : a ∈ papers) (nbs : List String)
    (hn : a.neighbors = some nbs) (b : String) (hb : b ∈ nbs)
    (hin : ids.contains b = true) :
    1 ≤ ((papers.foldl (simStep ids) acc).countP
      (fun l => pairMatches l a.arxiv_id b)) := by
  induction papers generalizing acc with
  | nil => cases ha
  | cons p ps ih =>
    rw [List.foldl_cons]
    rcases List.mem_cons.mp ha with rfl | htail
    · have h1 : 1 ≤ (simStep ids acc a).countP (fun l => pairMatches l a.arxiv_id b) := by
        unfold simStep
        rw [hn]
        exact addNeighborLinks_count_ge_one _ _ ids nbs acc hb hin
      calc 1 ≤ _ := h1
        _ ≤ _ := countP_le_simFold _ _ _ _
    · exact ih _ htail

/-- Every link produced by the inner loop beyond its accumulator is a
similarity link. -/
theorem addNeighborLinks_isCitation (srcId : String) (ids nbs : List String)
    (acc : List GraphLink) (hacc : ∀ l ∈ acc, l.isCitation = false) :
    ∀ l ∈ addNeighborLinks srcId ids nbs acc, l.isCitation = false := by
  induction nbs generalizing acc with
  | nil => exact hacc
  | cons nb rest ih =>
    rw [addNeighborLinks_cons]
    by_cases h1 : ids.contains nb = true
    · by_cases h2 : acc.any (fun l => pairMatches l srcId nb) = true
      · rw [if_pos h1, if_pos h2]
        exact ih acc hacc
      · rw [if_pos h1, if_neg h2]
        apply ih
        intro l hl
        rcases List.mem_append.mp hl with hl1 | hl2
        · exact hacc l hl1
        · rw [List.mem_singleton.mp hl2]
    · rw [if_neg h1]
      exact ih acc hacc

/-- Every similarity link carries `isCitation = false`. -/
theorem simFold_isCitation (papers : List Paper) (ids : List String)
    (acc : List GraphLink) (hacc : ∀ l ∈ acc, l.isCitation = false) :
    ∀ l ∈ papers.foldl (simStep ids) acc, l.isCitation = false := by
  induction papers generalizing acc with
  | nil => exact hacc
  | cons p ps ih =>
    rw [List.foldl_cons]
    apply ih
    unfold simStep
    cases p.neighbors with
    | none => exact hacc
    | some nbs => exact addNeighborLinks_isCitation _ ids nbs acc hacc

/-- Counting similarity edges for a pair over the full link list reduces
to counting pair matches over the similarity prefix. -/
theorem links_count_eq (papers : List Paper) (ids : List String)
    (cits : List GraphLink) (hcits : ∀ l ∈ cits, l.isCitation = true)
    (x y : String) :
    ((simLinks papers ids ++ cits).countP
      (fun l => !l.isCitation && pairMatches l x y)) =
      (simLinks papers ids).countP (fun l => pairMatches l x y) := by
  rw [List.countP_append]
  have h1 : cits.countP (fun l => !l.isCitation && pairMatches l x y) = 0 := by
    rw [List.countP_eq_zero]
    intro l hl
    simp [hcits l hl]
  rw [h1, Nat.add_zero]
  apply countP_ext
  intro l hl
  have := simFold_isCitation papers ids [] (by simp) l hl
  simp [this]

/-- Every materialized citation link carries `isCitation = true`. -/
theorem cits_isCitation (citationLinks : List CitationLink)
    (pred : CitationLink → Bool) :
    ∀ l ∈ (citationLinks.filter pred).map
      (fun cl => ({ source := .id cl.source, target := .id cl.target, isCitation := true } : GraphLink)),
      l.isCitation = true := by
  intro l hl
  rw [List.mem_map] at hl
  obtain ⟨cl, -, rfl⟩ := hl
  rfl

/-- Claim C4: when two papers with valid coordinates list each other as
neighbors, the built graph holds exactly one similarity edge for their
unordered pair; and in general no unordered pair of node ids is connected
by two similarity edges. -/
theorem similarity_edges_unique (papers : List Paper) (categories : List Category)
    (citationLinks : List CitationLink) (maxCitations : Nat) (a b : Paper)
    (ha : a ∈ papers) (hb : b ∈ papers)
    (hax : a.x.isSome = true) (hay : a.y.isSome = true)
    (hbx : b.x.isSome = true) (hby : b.y.isSome = true)
    (hab : b.arxiv_id ∈ a.neighbors.getD [])
    (hba : a.arxiv_id ∈ b.neighbors.getD []) :
    ((buildGraphData papers categories citationLinks maxCitations).links.countP
      (fun l => !l.isCitation && pairMatches l a.arxiv_id b.arxiv_id)) = 1 ∧
    ∀ x y : String,
      ((buildGraphData papers categories citationLinks maxCitations).links.countP
        (fun l => !l.isCitation && pairMatches l x y)) ≤ 1 := by
  have hlinks : (buildGraphData papers categories citationLinks maxCitations).links =
      simLinks papers
        (((papers.filter (fun p => p.x.isSome && p.y.isSome)).map
          (paperToNode categories maxCitations)).map (fun n => n.id)) ++
      ((citationLinks.filter (fun cl =>
          ((((papers.filter (fun p => p.x.isSome && p.y.isSome)).map
            (paperToNode categories maxCitations)).map (fun n => n.id)).contains cl.source &&
          ((((papers.filter (fun p => p.x.isSome && p.y.isSome)).map
            (paperToNode categories maxCitations)).map (fun n => n.id)).contains cl.target)))).map
        (fun cl => { source := .id cl.source, target := .id cl.target, isCitation := true })) :=
    rfl
  have hin : (((papers.filter (fun p => p.x.isSome && p.y.isSome)).map
      (paperToNode categories maxCitations)).map (fun n => n.id)).contains b.arxiv_id = true := by
    apply List.elem_iff.mpr
    rw [List.map_map, List.mem_map]
    exact ⟨b, List.mem_filter.mpr ⟨hb, by simp [hbx, hby]⟩, rfl⟩
  obtain ⟨nbs, hn, hbnbs⟩ : ∃ nbs, a.neighbors = some nbs ∧ b.arxiv_id ∈ nbs := by
    cases hcase : a.neighbors with
    | none => rw [hcase] at hab; cases hab
    | some nbs => exact ⟨nbs, rfl, by rw [hcase] at hab; simpa using hab⟩
  constructor
  · rw [hlinks, links_count_eq _ _ _ (cits_isCitation citationLinks _)]
    refine Nat.le_antisymm ?_ ?_
    · exact simFold_count_le_one _ _ papers _ [] (by simp)
    · exact simFold_count_ge_one papers _ [] a ha nbs hn b.arxiv_id hbnbs hin
  · intro x y
    rw [hlinks, links_count_eq _ _ _ (cits_isCitation citationLinks _)]
    exact simFold_count_le_one x y papers _ [] (by simp)

/-- Witness for C4: papers "A" and "B" are mutual neighbors with valid
coordinates; the built graph holds exactly one similarity edge for the
pair. -/
theorem similarity_edges_unique_witness :
    ((buildGraphData [paperA, paperB] [] [] 2).links.countP
      (fun l => !l.isCitation && pairMatches l paperA.arxiv_id paperB.arxiv_id)) = 1 ∧
    ∀ x y : String,
      ((buildGraphData [paperA, paperB] [] [] 2).links.countP
        (fun l => !l.isCitation && pairMatches l x y)) ≤ 1 :=
  similarity_edges_unique [paperA, paperB] [] [] 2 paperA paperB (by simp) (by simp)
    (by decide) (by decide) (by decide) (by decide) (by decide) (by decide)

end PaperMap
